import Mathlib

/-!
Verification of `src/server/atmosphere.py` (Cosmic-LifeMapper).

The script trains a dummy regressor on synthetic data, collects eight
exoplanet parameters from the console, predicts a 10-component gas
percentage vector, normalizes it to sum to 100 and prints a report.

Shallow embedding conventions:
* machine floats are modelled by `ℚ`; where division by zero matters the
  checked variant returns `Option`;
* randomness (`np.random.rand`, `np.random.dirichlet`) is modelled by
  oracle parameters; the distributional facts the code relies on
  (Dirichlet rows are nonnegative and sum to 1) become hypotheses;
* the file system is a partial map `String → Option FittedModel`;
* console output is modelled as the ordered list of strings passed to
  `print` (and `input` prompts), in program order.
-/

namespace Atmosphere

/-- `GASES` from atmosphere.py line 7: the ten gas labels, in order. -/
def GASES : List String :=
  ["CO2", "N2", "O2", "H2O", "CH4", "H2", "He", "SO2", "O3", "NH3"]

/-- `ESSENTIAL_FEATURES` from atmosphere.py lines 10-13: the eight input
feature names, in order (this is also the insertion order of the dict
literal built by `get_input`). -/
def ESSENTIAL_FEATURES : List String :=
  ["pl_dens", "pl_orbper", "pl_eqtstr", "st_rad", "st_lum",
   "pl_bmassj", "pl_ratror", "st_met"]

/-- The fixed artifact path `'atmo_percent_predictor.pkl'` used by
`joblib.dump` (line 36) and `joblib.load` (line 74). -/
def MODEL_PATH : String := "atmo_percent_predictor.pkl"

/-- Line 78, `normalized = 100 * raw_output / np.sum(raw_output)`:
elementwise `100 * x / sum` over the raw vector.  Over `ℚ` division by
zero is total (yields 0); the checked variant below exposes the
zero-divisor branch. -/
def normalize (v : List ℚ) : List ℚ :=
  v.map (fun x => 100 * x / v.sum)

/-- The same normalization with the division-by-zero branch made
explicit: `none` exactly when the divisor `np.sum(raw_output)` is zero,
which is the input on which the float code produces non-finite values. -/
def normalizeChecked (v : List ℚ) : Option (List ℚ) :=
  if v.sum = 0 then none else some (normalize v)

/-- Lines 45-52 of `generate_report`: the descriptor chosen for a
percentage.  The if/elif chain reads only `percent`, never `gas`. -/
def descriptor (percent : ℚ) : String :=
  if percent > 60 then " — Dominant gas"
  else if percent > 20 then " — Major component"
  else if percent > 5 then " — Minor component"
  else " — Trace presence"

/-- The classification performed inside the loop of `generate_report`
for the pair `(gas, percent)`.  The source computes `descriptor` from
`percent` alone, so the embedding ignores the gas argument exactly as
the code does. -/
def reportClassify (_gas : String) (percent : ℚ) : String :=
  descriptor percent

/-- Round half to even (the rounding used by Python float formatting),
producing an integer. -/
def roundHE (q : ℚ) : ℤ :=
  let f := ⌊q⌋
  let r := q - (f : ℚ)
  if r < 1/2 then f
  else if 1/2 < r then f + 1
  else if f % 2 = 0 then f else f + 1

/-- Python `f"{percent:.2f}"`: fixed-point rendering with two decimal
digits. -/
def format2f (q : ℚ) : String :=
  let n := roundHE (100 * q)
  let sign := if n < 0 then "-" else ""
  let m := n.natAbs
  let frac := m % 100
  sign ++ toString (m / 100) ++ "." ++
    (if frac < 10 then "0" ++ toString frac else toString frac)

/-- Python `f"{gas:>3}"`: right-align in a field of width `w` with
spaces. -/
def rightAlign (w : Nat) (s : String) : String :=
  String.mk (List.replicate (w - s.length) ' ') ++ s

/-- One row of the report table, line 54:
`f"{gas:>3}: {percent:.2f}%{descriptor}"`. -/
def reportLine (gp : String × ℚ) : String :=
  rightAlign 3 gp.1 ++ ": " ++ format2f gp.2 ++ "%" ++ reportClassify gp.1 gp.2

/-- The strings printed by the body of `generate_report` (lines 41-56),
in order: header, separator, one row per `zip(GASES, percentages)`
iteration, separator, and the citation-section header.  The four
citation lines are NOT part of this function: in the source they sit at
module level (column 0, lines 57-63). -/
def generate_report (percentages : List ℚ) : List String :=
  ["\nAtmospheric Composition Report",
   "===================================="]
  ++ (GASES.zip percentages).map reportLine
  ++ ["====================================\n",
      " Referenced Research Papers:"]

/-- The four module-level `print` statements, lines 57-63.  They execute
when the module is loaded, before `__main__` runs.  The `\“` escapes in
the Python source are unknown escape sequences, so the backslashes are
kept in the printed text. -/
def citationPrints : List String :=
  ["Armstrong et al., 2020 - \\“Atmospheric Retention Limits of Exoplanets Around M-Dwarfs\\”",
   "Seager & Deming, 2019 – \\“Exoplanet Atmospheres and Photochemical Modeling\\”",
   "Lopez & Fortney, 2013 – \\“The Role of Mass and Stellar Flux in Shaping Exoplanet Atmospheres\\”",
   "Madhusudhan et al., 2014 – \\“A Survey of Chemical Compositions of Transiting Exoplanets\\”"]

/-- The console text emitted by `get_input` (lines 15-26): the banner
`print` and the eight `input` prompts, in order. -/
def get_input_prompts : List String :=
  ["Enter Essential Exoplanet Parameters:",
   "Planet Density (g/cm³): ",
   "Orbital Period (days): ",
   "Equilibrium Temperature (K): ",
   "Stellar Radius (Solar Radii): ",
   "Stellar Luminosity (Solar Units): ",
   "Planet Mass (Jupiter Masses): ",
   "Planet-to-Star Radius Ratio: ",
   "Stellar Metallicity [Fe/H]: "]

/-- The full stdout trace of one run of the script on a prediction that
normalizes to `percentages`: module-level citation prints first (import
time), then `train_dummy_model`'s confirmation, then the input prompts,
then the report. -/
def scriptTrace (percentages : List ℚ) : List String :=
  citationPrints
  ++ ["Dummy atmospheric composition model trained and saved."]
  ++ get_input_prompts
  ++ generate_report percentages

/-- The concrete raw vector of the spec scenario, sum 98. -/
def rawExample : List ℚ := [70, 5, 5, 5, 5, 2, 2, 2, 1, 1]

/-- The all-zero raw 10-vector. -/
def allZeros : List ℚ := List.replicate 10 0

/-- Sequential collection loop underlying `get_input`: one key per
prompt, each response parsed; a failed parse aborts immediately (the
uncaught `ValueError` from `float`), modelled by `none`. -/
def collect (parse : String → Option ℚ) :
    List String → List String → Option (List (String × ℚ))
  | [], _ => some []
  | _ :: _, [] => none
  | k :: ks, r :: rs =>
    match parse r with
    | none => none
    | some x => (collect parse ks rs).map (fun t => (k, x) :: t)

/-- `get_input` (lines 15-26): builds the insertion-ordered mapping from
the eight feature names to the parsed responses.  Python's `float` is a
library call, modelled by the `parse` oracle; `none` is the uncaught
parse error. -/
def get_input (parse : String → Option ℚ) (responses : List String) :
    Option (List (String × ℚ)) :=
  collect parse ESSENTIAL_FEATURES responses

/-- The persisted regressor artifact: hyperparameters fixed at the call
site (`n_estimators=100, random_state=42`, line 33) together with the
training data it was fitted on. -/
structure FittedModel where
  n_estimators : Nat
  random_state : Nat
  trainX : List (List ℚ)
  trainY : List (List ℚ)
deriving DecidableEq

/-- `train_dummy_model` (lines 29-37).  `np.random.rand(500, 8)` and
`np.random.dirichlet(np.ones(10), size=500)` are modelled by the oracles
`rand` and `dirichletRow`; the Dirichlet rows are scaled by 100
(`* 100`, line 31).  Returns the updated file system (the `joblib.dump`
to `MODEL_PATH`, overwriting) and the printed confirmation. -/
def train_dummy_model (rand : Nat → Nat → ℚ) (dirichletRow : Nat → List ℚ)
    (fs : String → Option FittedModel) :
    (String → Option FittedModel) × String :=
  let X := (List.range 500).map fun i =>
    (List.range ESSENTIAL_FEATURES.length).map fun j => rand i j
  let Y := (List.range 500).map fun i => (dirichletRow i).map fun x => x * 100
  let model : FittedModel := ⟨100, 42, X, Y⟩
  (fun path => if path = MODEL_PATH then some model else fs path,
   "Dummy atmospheric composition model trained and saved.")

/-- Errors surfaced by loading the artifact. -/
inductive LoadError where
  | fileNotFound
deriving DecidableEq

/-- `joblib.load` (line 74) against the file-system map: a missing file
is the `FileNotFoundError`, propagated as `Except.error`. -/
def joblib_load (fs : String → Option FittedModel) (path : String) :
    Except LoadError FittedModel :=
  match fs path with
  | some m => Except.ok m
  | none => Except.error LoadError.fileNotFound

/-- The prediction phase of `__main__` (lines 74-78): load the artifact
from the fixed path, predict (the regressor's `predict` is a library
call, modelled by an oracle), normalize.  A load failure propagates:
there is no fallback branch. -/
def predict_phase (predict : FittedModel → List ℚ → List ℚ)
    (fs : String → Option FittedModel) (features : List ℚ) :
    Except LoadError (List ℚ) :=
  match joblib_load fs MODEL_PATH with
  | Except.error e => Except.error e
  | Except.ok m => Except.ok (normalize (predict m features))

/-! ## Helper lemmas -/

lemma sum_map_mul_div (v : List ℚ) (s : ℚ) :
    (v.map fun x => 100 * x / s).sum = 100 * v.sum / s := by
  induction v with
  | nil => simp
  | cons a t ih => simp only [List.map_cons, List.sum_cons, ih]; ring

lemma normalize_sum_eq (v : List ℚ) (h : v.sum ≠ 0) :
    (normalize v).sum = 100 := by
  rw [normalize, sum_map_mul_div, mul_div_assoc, div_self h, mul_one]

lemma normalize_of_sum_100 (v : List ℚ) (h : v.sum = 100) :
    normalize v = v := by
  rw [normalize, h]
  have : (fun x : ℚ => 100 * x / 100) = fun x => x := by
    funext x; field_simp
  rw [this]
  exact List.map_id v

lemma getD_map_div (v : List ℚ) (s : ℚ) (i : ℕ) :
    (v.map fun x => 100 * x / s).getD i 0 = 100 * v.getD i 0 / s := by
  induction v generalizing i with
  | nil =>
    simp
  | cons a t ih =>
    cases i with
    | zero => simp
    | succ n => simpa using ih n

lemma getD_normalize (v : List ℚ) (i : ℕ) :
    (normalize v).getD i 0 = 100 * v.getD i 0 / v.sum := by
  rw [normalize, getD_map_div]

lemma sum_map_mul_left (l : List ℚ) (c : ℚ) :
    (l.map fun x => c * x).sum = c * l.sum := by
  induction l with
  | nil => simp
  | cons a t ih => simp only [List.map_cons, List.sum_cons, ih]; ring

lemma sum_map_mul_right (l : List ℚ) (c : ℚ) :
    (l.map fun x => x * c).sum = l.sum * c := by
  induction l with
  | nil => simp
  | cons a t ih => simp only [List.map_cons, List.sum_cons, ih]; ring

lemma collect_some (parse : String → Option ℚ) (ks rs : List String)
    (hlen : ks.length = rs.length) (hall : ∀ r ∈ rs, (parse r).isSome) :
    collect parse ks rs = some (ks.zip (rs.map fun r => (parse r).getD 0)) := by
  induction ks generalizing rs with
  | nil =>
    cases rs with
    | nil => rfl
    | cons r rs => simp at hlen
  | cons k ks ih =>
    cases rs with
    | nil => simp at hlen
    | cons r rs =>
      have hr : (parse r).isSome := hall r (List.mem_cons_self r rs)
      obtain ⟨x, hx⟩ := Option.isSome_iff_exists.mp hr
      have htail : ∀ s ∈ rs, (parse s).isSome := fun s hs =>
        hall s (List.mem_cons_of_mem r hs)
      simp only [collect, hx]
      rw [ih rs (by simpa using hlen) htail]
      simp [hx]

lemma collect_none (parse : String → Option ℚ) (ks rs : List String)
    (hlen : ks.length = rs.length) (hbad : ∃ r ∈ rs, parse r = none) :
    collect parse ks rs = none := by
  induction ks generalizing rs with
  | nil =>
    cases rs with
    | nil => obtain ⟨r, hr, _⟩ := hbad; simp at hr
    | cons r rs => simp at hlen
  | cons k ks ih =>
    cases rs with
    | nil => simp at hlen
    | cons r rs =>
      obtain ⟨s, hs, hnone⟩ := hbad
      rcases List.mem_cons.mp hs with rfl | hs
      · simp [collect, hnone]
      · cases hp : parse r with
        | none => simp [collect, hp]
        | some x =>
          simp [collect, hp, ih rs (by simpa using hlen) ⟨s, hs, hnone⟩]

/-! ## Claims -/

/-- C1: for every raw 10-vector with strictly positive sum, the
normalization `100 * x / sum` (line 78) produces a vector whose
components sum exactly to 100 (over `ℚ`). -/
theorem claim_C1 (v : List ℚ) (_h10 : v.length = 10) (hpos : 0 < v.sum) :
    (normalize v).sum = 100 :=
  normalize_sum_eq v (ne_of_gt hpos)

theorem claim_C1_witness :
    ([1, 2, 3, 4, 5, 6, 7, 8, 9, 10] : List ℚ).length = 10 ∧
    (0 : ℚ) < ([1, 2, 3, 4, 5, 6, 7, 8, 9, 10] : List ℚ).sum ∧
    (normalize [1, 2, 3, 4, 5, 6, 7, 8, 9, 10]).sum = 100 :=
  ⟨rfl, by norm_num, claim_C1 [1, 2, 3, 4, 5, 6, 7, 8, 9, 10] rfl (by norm_num)⟩

/-- C2: the descriptor chosen by `generate_report` (lines 45-52) is a
pure function of the percentage with fixed strict thresholds 60/20/5,
and does not depend on the gas the value belongs to. -/
theorem claim_C2 (g : String) (p : ℚ) :
    reportClassify g p = descriptor p ∧
    (60 < p → descriptor p = " — Dominant gas") ∧
    (p ≤ 60 → 20 < p → descriptor p = " — Major component") ∧
    (p ≤ 20 → 5 < p → descriptor p = " — Minor component") ∧
    (p ≤ 5 → descriptor p = " — Trace presence") := by
  refine ⟨rfl, fun h => ?_, fun h1 h2 => ?_, fun h1 h2 => ?_, fun h => ?_⟩
  · simp [descriptor, h]
  · simp [descriptor, not_lt.mpr h1, h2]
  · have h60 : ¬ 60 < p := not_lt.mpr (h1.trans (by norm_num))
    simp [descriptor, h60, not_lt.mpr h1, h2]
  · have h60 : ¬ 60 < p := not_lt.mpr (h.trans (by norm_num))
    have h20 : ¬ 20 < p := not_lt.mpr (h.trans (by norm_num))
    simp [descriptor, h60, h20, not_lt.mpr h]

theorem claim_C2_witness :
    reportClassify "N2" 70 = descriptor 70 ∧
    descriptor 70 = " — Dominant gas" ∧
    descriptor 3 = " — Trace presence" :=
  ⟨(claim_C2 "N2" 70).1, (claim_C2 "N2" 70).2.1 (by norm_num),
   (claim_C2 "He" 3).2.2.2.2 (by norm_num)⟩

/-- C3: on the all-zero raw vector the divisor `np.sum(raw_output)` is
exactly zero, so the checked normalization takes its error branch
(`none`): line 78 is not total without a positive-sum precondition, and
the total-over-`ℚ` reading fails to establish the sum-100 invariant. -/
theorem claim_C3 :
    allZeros.sum = 0 ∧
    normalizeChecked allZeros = none ∧
    (normalize allZeros).sum ≠ 100 := by
  refine ⟨?_, ?_, ?_⟩ <;>
    simp [allZeros, normalizeChecked, normalize, List.sum_replicate]

lemma format2f_500_7 : format2f (500 / 7) = "71.43" := by
  norm_num [format2f, roundHE]
  rfl

lemma format2f_250_49 : format2f (250 / 49) = "5.10" := by
  norm_num [format2f, roundHE]
  rfl

lemma format2f_100_49 : format2f (100 / 49) = "2.04" := by
  norm_num [format2f, roundHE]
  rfl

lemma format2f_50_49 : format2f (50 / 49) = "1.02" := by
  norm_num [format2f, roundHE]
  rfl

lemma normalize_rawExample :
    normalize rawExample =
      [500/7, 250/49, 250/49, 250/49, 250/49,
       100/49, 100/49, 100/49, 50/49, 50/49] := by
  simp only [normalize, rawExample]
  norm_num

/-- C4: the raw vector `[70,5,5,5,5,2,2,2,1,1]` (sum 98) normalizes to
`100 * raw / 98` componentwise, renders as
`[71.43, 5.10, 5.10, 5.10, 5.10, 2.04, 2.04, 2.04, 1.02, 1.02]` at two
decimals, and classifies as CO2 dominant, N2/O2/H2O/CH4 minor, and the
remaining four gases trace. -/
theorem claim_C4 :
    normalize rawExample =
      [7000/98, 500/98, 500/98, 500/98, 500/98,
       200/98, 200/98, 200/98, 100/98, 100/98] ∧
    (normalize rawExample).map format2f =
      ["71.43", "5.10", "5.10", "5.10", "5.10",
       "2.04", "2.04", "2.04", "1.02", "1.02"] ∧
    (GASES.zip (normalize rawExample)).map
        (fun gp => (gp.1, reportClassify gp.1 gp.2)) =
      [("CO2", " — Dominant gas"), ("N2", " — Minor component"),
       ("O2", " — Minor component"), ("H2O", " — Minor component"),
       ("CH4", " — Minor component"), ("H2", " — Trace presence"),
       ("He", " — Trace presence"), ("SO2", " — Trace presence"),
       ("O3", " — Trace presence"), ("NH3", " — Trace presence")] := by
  refine ⟨?_, ?_, ?_⟩
  · rw [normalize_rawExample]; norm_num
  · rw [normalize_rawExample]
    simp only [List.map_cons, List.map_nil,
      format2f_500_7, format2f_250_49, format2f_100_49, format2f_50_49]
  · rw [normalize_rawExample]
    norm_num [GASES, reportClassify, descriptor]

/-- C5: the code bug behind the claim that the four citation lines are
printed after the report table.  In the source they are module-level
statements (lines 57-63), so in the run trace they are the FIRST four
strings printed, and the last string printed is the
`" Referenced Research Papers:"` header from inside `generate_report`
with no citations after it. -/
theorem claim_C5 :
    (scriptTrace (normalize rawExample)).take 4 = citationPrints ∧
    (scriptTrace (normalize rawExample)).getLast? =
      some " Referenced Research Papers:" ∧
    (generate_report (normalize rawExample)).getLast? =
      some " Referenced Research Papers:" := by
  refine ⟨rfl, ?_, ?_⟩ <;> rfl

/-- C6: `get_input` consumes exactly the 8 responses for the 8 feature
names in the fixed `ESSENTIAL_FEATURES` order, parses each as a float,
and returns the mapping in insertion order; a non-numeric response
(parse failure) aborts the whole collection with no retry. -/
theorem claim_C6 (parse : String → Option ℚ) (rs : List String)
    (h8 : rs.length = 8) :
    ((∀ r ∈ rs, (parse r).isSome) →
      get_input parse rs =
        some (ESSENTIAL_FEATURES.zip (rs.map fun r => (parse r).getD 0)) ∧
      (ESSENTIAL_FEATURES.zip (rs.map fun r => (parse r).getD 0)).map
          Prod.fst = ESSENTIAL_FEATURES) ∧
    ((∃ r ∈ rs, parse r = none) → get_input parse rs = none) := by
  have hlen : ESSENTIAL_FEATURES.length = rs.length := by rw [h8]; rfl
  constructor
  · intro hall
    refine ⟨collect_some parse ESSENTIAL_FEATURES rs hlen hall, ?_⟩
    have hle : ESSENTIAL_FEATURES.length ≤
        (rs.map fun r => (parse r).getD 0).length := by
      rw [List.length_map]; exact hlen.le
    exact List.map_fst_zip _ _ hle
  · intro hbad
    exact collect_none parse ESSENTIAL_FEATURES rs hlen hbad

theorem claim_C6_witness :
    get_input (fun s => if s = "bad" then none else some (1 : ℚ))
        ["a", "b", "c", "d", "e", "f", "g", "h"] =
      some (ESSENTIAL_FEATURES.zip
        ((["a", "b", "c", "d", "e", "f", "g", "h"] : List String).map
          fun r => ((if r = "bad" then none else some (1 : ℚ)).getD 0))) ∧
    get_input (fun s => if s = "bad" then none else some (1 : ℚ))
        ["a", "bad", "c", "d", "e", "f", "g", "h"] = none :=
  ⟨((claim_C6 (fun s => if s = "bad" then none else some (1 : ℚ))
      ["a", "b", "c", "d", "e", "f", "g", "h"] rfl).1 (by decide)).1,
   (claim_C6 (fun s => if s = "bad" then none else some (1 : ℚ))
      ["a", "bad", "c", "d", "e", "f", "g", "h"] rfl).2
     ⟨"bad", by decide, by decide⟩⟩

set_option maxRecDepth 4000 in
/-- C7: `train_dummy_model` builds 500 feature rows of 8 sampled values,
500 label rows that are Dirichlet rows scaled by 100 (hence nonnegative
and summing to 100 whenever the sampled rows are nonnegative and sum to
1), fits a 100-tree regressor with seed 42, stores it at the fixed path
`atmo_percent_predictor.pkl` overwriting any prior artifact, and prints
the confirmation message. -/
theorem claim_C7 (rand : Nat → Nat → ℚ) (dirichletRow : Nat → List ℚ)
    (fs : String → Option FittedModel)
    (hlen : ∀ i, (dirichletRow i).length = 10)
    (hsum : ∀ i, (dirichletRow i).sum = 1)
    (hnn : ∀ i, ∀ x ∈ dirichletRow i, 0 ≤ x) :
    ∃ m : FittedModel,
      (train_dummy_model rand dirichletRow fs).1 MODEL_PATH = some m ∧
      m.n_estimators = 100 ∧
      m.random_state = 42 ∧
      m.trainX.length = 500 ∧
      (∀ row ∈ m.trainX, row.length = 8) ∧
      m.trainY.length = 500 ∧
      (∀ row ∈ m.trainY, row.length = 10 ∧ row.sum = 100 ∧ ∀ x ∈ row, 0 ≤ x) ∧
      (train_dummy_model rand dirichletRow fs).2 =
        "Dummy atmospheric composition model trained and saved." := by
  refine ⟨⟨100, 42,
      (List.range 500).map fun i =>
        (List.range ESSENTIAL_FEATURES.length).map fun j => rand i j,
      (List.range 500).map fun i => (dirichletRow i).map fun x => x * 100⟩,
    ?_, rfl, rfl, ?_, ?_, ?_, ?_, rfl⟩
  · simp [train_dummy_model]
  · simp
  · intro row hrow
    obtain ⟨i, _, rfl⟩ := List.mem_map.mp hrow
    simp [ESSENTIAL_FEATURES]
  · simp
  · intro row hrow
    obtain ⟨i, _, rfl⟩ := List.mem_map.mp hrow
    refine ⟨by simp [hlen i], ?_, ?_⟩
    · rw [sum_map_mul_right, hsum i, one_mul]
    · intro x hx
      obtain ⟨y, hy, rfl⟩ := List.mem_map.mp hx
      exact mul_nonneg (hnn i y hy) (by norm_num)

theorem claim_C7_witness :
    ∃ m : FittedModel,
      (train_dummy_model (fun _ _ => 0) (fun _ => List.replicate 10 (1/10))
          (fun _ => none)).1 MODEL_PATH = some m ∧
      m.n_estimators = 100 ∧
      m.random_state = 42 ∧
      m.trainX.length = 500 ∧
      (∀ row ∈ m.trainX, row.length = 8) ∧
      m.trainY.length = 500 ∧
      (∀ row ∈ m.trainY, row.length = 10 ∧ row.sum = 100 ∧ ∀ x ∈ row, 0 ≤ x) ∧
      (train_dummy_model (fun _ _ => 0) (fun _ => List.replicate 10 (1/10))
          (fun _ => none)).2 =
        "Dummy atmospheric composition model trained and saved." :=
  claim_C7 _ _ _ (fun _ => rfl)
    (fun _ => by norm_num [List.sum_replicate, nsmul_eq_mul])
    (fun _ => fun x hx => by rw [List.eq_of_mem_replicate hx]; norm_num)

/-- C8: if the artifact file is absent at predict time, `joblib.load`
surfaces a file-not-found error that propagates out of the prediction
phase unchanged; there is no fallback model or default prediction. -/
theorem claim_C8 (predict : FittedModel → List ℚ → List ℚ)
    (fs : String → Option FittedModel) (features : List ℚ)
    (habsent : fs MODEL_PATH = none) :
    predict_phase predict fs features =
      Except.error LoadError.fileNotFound := by
  simp [predict_phase, joblib_load, habsent]

theorem claim_C8_witness :
    predict_phase (fun _ _ => []) (fun _ => none) [] =
      Except.error LoadError.fileNotFound :=
  claim_C8 _ _ _ rfl

/-- C9: normalization is scale-invariant (scaling the raw vector by any
`c > 0` leaves the output unchanged), idempotent, and fixes any vector
that already sums to 100. -/
theorem claim_C9 (v : List ℚ) (c : ℚ) (_h10 : v.length = 10)
    (hpos : 0 < v.sum) (hc : 0 < c) :
    normalize (v.map fun x => c * x) = normalize v ∧
    normalize (normalize v) = normalize v ∧
    (v.sum = 100 → normalize v = v) := by
  have hs : v.sum ≠ 0 := ne_of_gt hpos
  have hcne : c ≠ 0 := ne_of_gt hc
  refine ⟨?_, normalize_of_sum_100 _ (normalize_sum_eq v hs),
    normalize_of_sum_100 v⟩
  simp only [normalize, sum_map_mul_left, List.map_map, Function.comp]
  congr 1
  funext x
  field_simp
  ring

theorem claim_C9_witness :
    normalize ((([1, 2, 3, 4, 5, 6, 7, 8, 9, 10] : List ℚ)).map
        fun x => 2 * x) =
      normalize [1, 2, 3, 4, 5, 6, 7, 8, 9, 10] ∧
    normalize (normalize [1, 2, 3, 4, 5, 6, 7, 8, 9, 10]) =
      normalize [1, 2, 3, 4, 5, 6, 7, 8, 9, 10] ∧
    (([1, 2, 3, 4, 5, 6, 7, 8, 9, 10] : List ℚ).sum = 100 →
      normalize [1, 2, 3, 4, 5, 6, 7, 8, 9, 10] =
        [1, 2, 3, 4, 5, 6, 7, 8, 9, 10]) :=
  claim_C9 _ 2 rfl (by norm_num) (by norm_num)

/-- C10: for a nonnegative raw 10-vector with strictly positive sum,
every normalized component lies in `[0, 100]`, and normalization
preserves the relative order of components. -/
theorem claim_C10 (v : List ℚ) (_h10 : v.length = 10)
    (hnn : ∀ x ∈ v, 0 ≤ x) (hpos : 0 < v.sum) :
    (∀ y ∈ normalize v, 0 ≤ y ∧ y ≤ 100) ∧
    (∀ i j : ℕ, i < 10 → j < 10 → v.getD i 0 ≤ v.getD j 0 →
      (normalize v).getD i 0 ≤ (normalize v).getD j 0) := by
  constructor
  · intro y hy
    simp only [normalize] at hy
    obtain ⟨x, hx, rfl⟩ := List.mem_map.mp hy
    constructor
    · exact div_nonneg (mul_nonneg (by norm_num) (hnn x hx)) hpos.le
    · rw [div_le_iff₀ hpos]
      exact mul_le_mul_of_nonneg_left (List.single_le_sum hnn x hx)
        (by norm_num)
  · intro i j _ _ hij
    rw [getD_normalize, getD_normalize]
    gcongr

theorem claim_C10_witness :
    (∀ y ∈ normalize [0, 1, 2, 3, 4, 5, 6, 7, 8, 9], (0 : ℚ) ≤ y ∧ y ≤ 100) ∧
    (∀ i j : ℕ, i < 10 → j < 10 →
      ([0, 1, 2, 3, 4, 5, 6, 7, 8, 9] : List ℚ).getD i 0 ≤
        ([0, 1, 2, 3, 4, 5, 6, 7, 8, 9] : List ℚ).getD j 0 →
      (normalize [0, 1, 2, 3, 4, 5, 6, 7, 8, 9]).getD i 0 ≤
        (normalize [0, 1, 2, 3, 4, 5, 6, 7, 8, 9]).getD j 0) :=
  claim_C10 _ rfl (by intro x hx; fin_cases hx <;> norm_num) (by norm_num)

end Atmosphere
